import Mathlib

/-!
# Verification of the TradingAgents data / report layer

Shallow embedding of the repository's report-formatting scripts
(`current.py`, `todays_report.py`, `main.py`), of the façade export list
(`tradingagents/dataflows/__init__.py`), and — modelled from the spec where
the implementation is not part of the corpus — of the windowing/caching
layer.  Python floats are modelled as rationals, Python dictionaries as
association lists, and the effectful control flow of the scripts as pure
functions over an explicit environment together with a trace of I/O events.
-/

set_option maxRecDepth 8000

namespace TradingAgents

/-! ## Python `"%.2f"`-style fixed-point formatting, modelled over ℚ

`f"{x:.2f}"` in Python rounds the value to two decimal places with ties
going to the even last digit, and always prints exactly two digits after
the decimal point. -/

/-- Round the fraction `n / d` (with `d > 0`) to the nearest integer, ties
to the even integer (the rounding used by Python's fixed-point float
formatting).  `Int.fdiv` is floor division, so `r` is the nonnegative
remainder and `2*r` compared with `d` decides the direction. -/
def roundHalfEvenScaled (n : ℤ) (d : ℕ) : ℤ :=
  let f : ℤ := Int.fdiv n d
  let r : ℤ := n - f * d
  if 2 * r < (d : ℤ) then f
  else if (d : ℤ) < 2 * r then f + 1
  else if f % 2 = 0 then f else f + 1

/-- Render a natural number below 100 as exactly two decimal digits. -/
def natPad2 (n : ℕ) : String :=
  if n < 10 then "0" ++ Nat.repr n else Nat.repr n

/-- Model of Python's `f"{x:.2f}"` for a numeric value `x` (as a rational
`q = q.num / q.den`): round `q * 100` to the nearest integer, ties to even,
and print with exactly two digits after the decimal point.  A negative
value that rounds to zero keeps its sign, as Python's float formatting
does. -/
def pyFormatFixed2 (q : ℚ) : String :=
  let n : ℤ := roundHalfEvenScaled (q.num * 100) q.den
  let sign : String := if n < 0 ∨ (n = 0 ∧ q.num < 0) then "-" else ""
  let m : ℕ := n.natAbs
  sign ++ Nat.repr (m / 100) ++ "." ++ natPad2 (m % 100)

example : pyFormatFixed2 150 = "150.00" := by decide
example : pyFormatFixed2 (mkRat 21 25) = "0.84" := by decide
example : pyFormatFixed2 (mkRat 5 4) = "1.25" := by decide
example : pyFormatFixed2 0 = "0.00" := by decide
example : pyFormatFixed2 (mkRat (-5) 4) = "-1.25" := by decide
example : pyFormatFixed2 (mkRat 1 8) = "0.12" := by decide
example : pyFormatFixed2 (mkRat (-1) 1000) = "-0.00" := by decide

/-- `t` occurs as a contiguous substring of `s`. -/
def containsSub (s t : String) : Prop :=
  t.data <:+: s.data

instance (s t : String) : Decidable (containsSub s t) := by
  unfold containsSub; infer_instance

theorem containsSub_of_append (s t a b : String) (h : s = a ++ t ++ b) :
    containsSub s t := by
  subst h
  show t.data <:+: (a ++ t ++ b).data
  rw [String.data_append, String.data_append]
  exact List.infix_append _ _ _

theorem containsSub_append_left (a b t : String) (h : containsSub a t) :
    containsSub (a ++ b) t := by
  obtain ⟨p, q, hpq⟩ := h
  exact ⟨p, q ++ b.data, by rw [String.data_append, ← hpq]; simp⟩

theorem containsSub_append_right (a b t : String) (h : containsSub b t) :
    containsSub (a ++ b) t := by
  obtain ⟨p, q, hpq⟩ := h
  exact ⟨a.data ++ p, q, by rw [String.data_append, ← hpq]; simp⟩

/-! ## Python dictionaries of numeric fields

A Finnhub quote response is a JSON object with numeric fields `c`, `d`,
`dp`, `h`, `l`, `o`, `pc`; modelled as an association list from field name
to rational.  `dictGetD d k v` is Python's `d.get(k, v)`. -/

def dictGet : List (String × ℚ) → String → Option ℚ
  | [], _ => none
  | (k', v) :: rest, k => if k' = k then some v else dictGet rest k

/-- Python's `d.get(k, v₀)`. -/
def dictGetD (d : List (String × ℚ)) (k : String) (v₀ : ℚ) : ℚ :=
  (dictGet d k).getD v₀

/-! ## The quote reports of `current.py` and `todays_report.py`

`current.py` lines 27–35 build `quote_msg` from `quote.get(key, 0)` for the
seven fields; `todays_report.py` lines 235–243 build the same message except
that the first line prints the (possibly caller-supplied) `current_price`
variable. -/

/-- The `quote_msg` f-string of `current.py` (`main`, lines 27–35). -/
def currentQuoteMsg (quote : List (String × ℚ)) : String :=
  "\n"
  ++ ("Current price: $" ++ pyFormatFixed2 (dictGetD quote "c" 0) ++ "\n")
  ++ ("Change: $" ++ pyFormatFixed2 (dictGetD quote "d" 0) ++ "\n")
  ++ ("Percent change: " ++ pyFormatFixed2 (dictGetD quote "dp" 0) ++ "%\n")
  ++ ("High price of the day: $" ++ pyFormatFixed2 (dictGetD quote "h" 0) ++ "\n")
  ++ ("Low price of the day: $" ++ pyFormatFixed2 (dictGetD quote "l" 0) ++ "\n")
  ++ ("Open price of the day: $" ++ pyFormatFixed2 (dictGetD quote "o" 0) ++ "\n")
  ++ ("Previous close price: $" ++ pyFormatFixed2 (dictGetD quote "pc" 0) ++ "\n")

/-- The `quote_msg` f-string of `todays_report.py` (`get_trading_decision`,
lines 235–243): identical to `current.py`'s except that the first line
prints the `current_price` variable. -/
def todaysQuoteMsg (current_price : ℚ) (quote : List (String × ℚ)) : String :=
  "\n"
  ++ ("Current price: $" ++ pyFormatFixed2 current_price ++ "\n")
  ++ ("Change: $" ++ pyFormatFixed2 (dictGetD quote "d" 0) ++ "\n")
  ++ ("Percent change: " ++ pyFormatFixed2 (dictGetD quote "dp" 0) ++ "%\n")
  ++ ("High price of the day: $" ++ pyFormatFixed2 (dictGetD quote "h" 0) ++ "\n")
  ++ ("Low price of the day: $" ++ pyFormatFixed2 (dictGetD quote "l" 0) ++ "\n")
  ++ ("Open price of the day: $" ++ pyFormatFixed2 (dictGetD quote "o" 0) ++ "\n")
  ++ ("Previous close price: $" ++ pyFormatFixed2 (dictGetD quote "pc" 0) ++ "\n")

/-- The worked quote of the spec's §8 example:
`{c: 150.00, d: 1.25, dp: 0.84, h: 151.0, l: 149.0, o: 149.5, pc: 148.75}`. -/
def aaplQuote : List (String × ℚ) :=
  [("c", 150), ("d", mkRat 5 4), ("dp", mkRat 21 25), ("h", 151),
   ("l", 149), ("o", mkRat 299 2), ("pc", mkRat 595 4)]

/-- A quote dictionary carrying all seven fields, each zero. -/
def zeroQuote : List (String × ℚ) :=
  [("c", 0), ("d", 0), ("dp", 0), ("h", 0), ("l", 0), ("o", 0), ("pc", 0)]

/-- C2: the textual quote report renders every price and percentage with
exactly two decimal places (`natPad2` always yields two digits and
`pyFormatFixed2` always ends in a dot followed by two digits), and the
quote `{c: 150.00, d: 1.25, dp: 0.84, h: 151.0, l: 149.0, o: 149.5,
pc: 148.75}` formats — in `current.py`'s report and in
`todays_report.py`'s — to text containing `"Current price: $150.00"` and
`"Percent change: 0.84%"`. -/
theorem quote_report_decimal_formatting :
    (∀ r : ℕ, r < 100 → (natPad2 r).length = 2) ∧
    (∀ q : ℚ, ∃ intPart : String, ∃ r : ℕ, r < 100 ∧
        pyFormatFixed2 q = intPart ++ "." ++ natPad2 r) ∧
    containsSub (currentQuoteMsg aaplQuote) "Current price: $150.00" ∧
    containsSub (currentQuoteMsg aaplQuote) "Percent change: 0.84%" ∧
    containsSub (todaysQuoteMsg 150 aaplQuote) "Current price: $150.00" ∧
    containsSub (todaysQuoteMsg 150 aaplQuote) "Percent change: 0.84%" := by
  refine ⟨by decide, fun q => ?_, by decide, by decide, by decide, by decide⟩
  have h : pyFormatFixed2 q =
      ((if roundHalfEvenScaled (q.num * 100) q.den < 0 ∨
          (roundHalfEvenScaled (q.num * 100) q.den = 0 ∧ q.num < 0) then "-" else "")
        ++ Nat.repr ((roundHalfEvenScaled (q.num * 100) q.den).natAbs / 100))
      ++ "." ++ natPad2 ((roundHalfEvenScaled (q.num * 100) q.den).natAbs % 100) := rfl
  exact ⟨_, _, Nat.mod_lt _ (by norm_num), h⟩

/-- C8: the quote report of `current.py` is total over missing fields —
each of the seven keys, when absent from the response dictionary, is
rendered with the default 0 as a `0.00` field — and the report built from
an empty response is the very string built from a genuinely all-zero
quote. -/
theorem quote_report_total_over_missing_fields :
    (∀ d, dictGet d "c" = none →
      containsSub (currentQuoteMsg d) "Current price: $0.00") ∧
    (∀ d, dictGet d "d" = none →
      containsSub (currentQuoteMsg d) "Change: $0.00") ∧
    (∀ d, dictGet d "dp" = none →
      containsSub (currentQuoteMsg d) "Percent change: 0.00%") ∧
    (∀ d, dictGet d "h" = none →
      containsSub (currentQuoteMsg d) "High price of the day: $0.00") ∧
    (∀ d, dictGet d "l" = none →
      containsSub (currentQuoteMsg d) "Low price of the day: $0.00") ∧
    (∀ d, dictGet d "o" = none →
      containsSub (currentQuoteMsg d) "Open price of the day: $0.00") ∧
    (∀ d, dictGet d "pc" = none →
      containsSub (currentQuoteMsg d) "Previous close price: $0.00") ∧
    currentQuoteMsg [] = currentQuoteMsg zeroQuote := by
  refine ⟨?_, ?_, ?_, ?_, ?_, ?_, ?_, by decide⟩
  · intro d hc
    have h0 : dictGetD d "c" 0 = 0 := by simp [dictGetD, hc]
    unfold currentQuoteMsg
    rw [h0]
    apply containsSub_append_left; apply containsSub_append_left
    apply containsSub_append_left; apply containsSub_append_left
    apply containsSub_append_left; apply containsSub_append_left
    apply containsSub_append_right
    decide
  · intro d hc
    have h0 : dictGetD d "d" 0 = 0 := by simp [dictGetD, hc]
    unfold currentQuoteMsg
    rw [h0]
    apply containsSub_append_left; apply containsSub_append_left
    apply containsSub_append_left; apply containsSub_append_left
    apply containsSub_append_left
    apply containsSub_append_right
    decide
  · intro d hc
    have h0 : dictGetD d "dp" 0 = 0 := by simp [dictGetD, hc]
    unfold currentQuoteMsg
    rw [h0]
    apply containsSub_append_left; apply containsSub_append_left
    apply containsSub_append_left; apply containsSub_append_left
    apply containsSub_append_right
    decide
  · intro d hc
    have h0 : dictGetD d "h" 0 = 0 := by simp [dictGetD, hc]
    unfold currentQuoteMsg
    rw [h0]
    apply containsSub_append_left; apply containsSub_append_left
    apply containsSub_append_left
    apply containsSub_append_right
    decide
  · intro d hc
    have h0 : dictGetD d "l" 0 = 0 := by simp [dictGetD, hc]
    unfold currentQuoteMsg
    rw [h0]
    apply containsSub_append_left; apply containsSub_append_left
    apply containsSub_append_right
    decide
  · intro d hc
    have h0 : dictGetD d "o" 0 = 0 := by simp [dictGetD, hc]
    unfold currentQuoteMsg
    rw [h0]
    apply containsSub_append_left
    apply containsSub_append_right
    decide
  · intro d hc
    have h0 : dictGetD d "pc" 0 = 0 := by simp [dictGetD, hc]
    unfold currentQuoteMsg
    rw [h0]
    apply containsSub_append_right
    decide

/-! ## Python string helpers -/

/-- Python's `str.upper()` (ASCII fragment). -/
def pyUpper (s : String) : String := ⟨s.data.map Char.toUpper⟩

/-- Python's `str.strip()` (whitespace at both ends). -/
def pyStrip (s : String) : String :=
  ⟨((s.data.dropWhile Char.isWhitespace).reverse.dropWhile Char.isWhitespace).reverse⟩

/-- Python's `str.isalpha()`: non-empty and letters only (ASCII fragment;
the scripts' tickers are ASCII). -/
def pyIsAlpha (s : String) : Bool := !s.data.isEmpty && s.data.all Char.isAlpha

/-! ## `datetime.strptime(s, "%Y-%m-%d")`

`%Y` matches exactly four digits, `%m` and `%d` one or two digits, with
the literal dashes in between and nothing left over; `datetime` then
validates the calendar (month 1–12, day within the month, year at
least 1). -/

/-- Split a character list at every dash (the separators of the
`"%Y-%m-%d"` pattern). -/
def splitDashes : List Char → List (List Char)
  | [] => [[]]
  | c :: rest =>
    if c = '-' then [] :: splitDashes rest
    else
      match splitDashes rest with
      | h :: t => (c :: h) :: t
      | [] => [[c]]

def allDigits (l : List Char) : Bool := !l.isEmpty && l.all Char.isDigit

def digitsToNat (l : List Char) : ℕ :=
  l.foldl (fun a c => 10 * a + (c.toNat - 48)) 0

def isLeapYear (y : ℕ) : Bool := y % 4 = 0 && (y % 100 ≠ 0 || y % 400 = 0)

def daysInMonth (y m : ℕ) : ℕ :=
  if m = 2 then (if isLeapYear y then 29 else 28)
  else if m = 4 ∨ m = 6 ∨ m = 9 ∨ m = 11 then 30
  else 31

/-- Model of `datetime.strptime(s, "%Y-%m-%d")`: `some (y, m, d)` when the
string parses and names a real calendar date, `none` when `strptime`
raises `ValueError`. -/
def parseDateYMD (s : String) : Option (ℕ × ℕ × ℕ) :=
  match splitDashes s.data with
  | [ys, ms, ds] =>
    if allDigits ys && ys.length = 4 && allDigits ms && ms.length ≤ 2
        && allDigits ds && ds.length ≤ 2 then
      let y := digitsToNat ys
      let m := digitsToNat ms
      let d := digitsToNat ds
      if 1 ≤ y && 1 ≤ m && m ≤ 12 && 1 ≤ d && d ≤ daysInMonth y m then
        some (y, m, d)
      else none
    else none
  | _ => none

example : (parseDateYMD "2025-08-02").isSome = true := by decide
example : parseDateYMD "2024-13-01" = none := by decide
example : parseDateYMD "2024-02-30" = none := by decide
example : parseDateYMD "not-a-date" = none := by decide
example : (parseDateYMD "2024-2-5").isSome = true := by decide
example : parseDateYMD "999-01-01" = none := by decide
example : parseDateYMD "99-1-1" = none := by decide
example : parseDateYMD "5-1-1" = none := by decide
example : (parseDateYMD "0999-01-01").isSome = true := by decide
example : parseDateYMD "0000-01-01" = none := by decide

/-! ## Python float format specifications

The format-spec mini-language for floats:
`[[fill]align][sign][z][#][0][width][grouping][.precision][type]` with
type one of `eEfFgGn%` or empty; anything left over makes the spec
invalid, and `float.__format__` raises `ValueError`. -/

def isAlignChar (c : Char) : Bool := c = '<' || c = '>' || c = '^' || c = '='

def isSignChar (c : Char) : Bool := c = '+' || c = '-' || c = ' '

def isFloatTypeChar (c : Char) : Bool :=
  c = 'e' || c = 'E' || c = 'f' || c = 'F' || c = 'g' || c = 'G' || c = 'n' || c = '%'

/-- Consume an optional `.precision` (a dot must be followed by at least
one digit; a bare dot makes the spec invalid). -/
def dropPrecision : List Char → Option (List Char)
  | '.' :: rest =>
    if (rest.takeWhile Char.isDigit).isEmpty then none
    else some (rest.dropWhile Char.isDigit)
  | l => some l

/-- Does Python's float formatting accept the format spec?  Faithful to the
grammar above: strip `[[fill]align]`, `[sign]`, `[z]`, `[#]`, `[0]`,
`[width]`, `[grouping]`, `[.precision]`, then at most one type character
may remain. -/
def validFloatFormatSpec (spec : String) : Bool :=
  let l := spec.data
  let l := match l with
    | a :: b :: rest =>
      if isAlignChar b then rest
      else if isAlignChar a then b :: rest
      else a :: b :: rest
    | [a] => if isAlignChar a then [] else [a]
    | [] => []
  let l := match l with
    | c :: rest => if isSignChar c then rest else c :: rest
    | [] => []
  let l := match l with | 'z' :: rest => rest | l => l
  let l := match l with | '#' :: rest => rest | l => l
  let l := match l with | '0' :: rest => rest | l => l
  let l := l.dropWhile Char.isDigit
  let l := match l with | ',' :: rest => rest | '_' :: rest => rest | l => l
  match dropPrecision l with
  | none => false
  | some [] => true
  | some [c] => isFloatTypeChar c
  | some (_ :: _ :: _) => false

example : validFloatFormatSpec ".2f" = true := by decide
example : validFloatFormatSpec "" = true := by decide
example : validFloatFormatSpec "08.3e" = true := by decide

/-- The format spec the fallback f-string of `todays_report.py` line 246
hands to `__format__`: in
`f"...${current_price:.2f if current_price else 0:.2f}\n"` everything
between the first `:` and the closing brace is the spec. -/
def fallbackSpec : String := ".2f if current_price else 0:.2f"

/-- The fallback specifier is not a valid float format spec. -/
theorem fallbackSpec_invalid : validFloatFormatSpec fallbackSpec = false := by decide

/-! ## I/O events and the control flow of the scripts -/

/-- The externally visible I/O of the scripts: a quote-provider call, a
read or write of a report file, an LLM invocation, or the (external)
agent-graph propagation of `main.py`. -/
inductive IOEvent : Type where
  | providerQuote (ticker : String)
  | fileRead (path : String)
  | llmInvoke
  | fileWrite (path : String)
  | graphPropagate (ticker date : String)
  deriving DecidableEq

/-- `current.py` `main` (lines 17–37): uppercase the command-line argument
and call the quote provider with it — no validation — then print the
formatted report.  Returns the report and the I/O trace. -/
def currentMain (tickerArg : String) (quoteResponse : List (String × ℚ)) :
    String × List IOEvent :=
  let ticker := pyUpper tickerArg
  (currentQuoteMsg quoteResponse, [IOEvent.providerQuote ticker])

/-- A position dictionary: both `collect_position_info` and
`build_position_info_from_args` populate exactly the keys
`entry_price`, `size`, `risk_tolerance`, `trading_style`. -/
structure PositionInfo where
  entry_price : ℚ
  size : ℤ
  risk_tolerance : String
  trading_style : String
  deriving DecidableEq

/-- Python truthiness of an optional float: `None` and `0.0` are falsy. -/
def truthyQ : Option ℚ → Bool
  | none => false
  | some x => if x = 0 then false else true

/-- Python truthiness of an optional int: `None` and `0` are falsy. -/
def truthyZ : Option ℤ → Bool
  | none => false
  | some n => if n = 0 then false else true

/-- `build_position_info_from_args` (`todays_report.py` lines 138–166):
`if not any([args.entry_price, args.position_size]): return None`, then
`if not args.entry_price or not args.position_size:` warn and return
`None`, else the four-key dictionary.  `args.entry_price` is a float or
`None`, `args.position_size` an int or `None`; the guards use Python
truthiness. -/
def build_position_info_from_args (entry_price : Option ℚ)
    (position_size : Option ℤ) (risk_tolerance trading_style : String) :
    Option PositionInfo :=
  if !(truthyQ entry_price || truthyZ position_size) then none
  else if !truthyQ entry_price || !truthyZ position_size then none
  else some ⟨entry_price.getD 0, position_size.getD 0, risk_tolerance, trading_style⟩

/-! ## `get_trading_decision` (`todays_report.py` lines 209–401)

The function's effects in order: the quote-provider call (with the fallback
f-string in the `except` handler), the `ChatDeepSeek` construction (pure),
the read of the previous decision file (`exit(1)` on any failure), the
position/prompt construction, and the LLM invocation (whose failure is
folded into the returned record).  The environment carries what the three
effectful collaborators would return. -/

/-- What the external collaborators of one `get_trading_decision` call
return: the quote provider, the decision-file read, and the LLM. -/
structure GTDEnv where
  quoteResult : Except String (List (String × ℚ))
  fileResult : Except String String
  llmResult : Except String String

/-- The decision dictionary returned by `get_trading_decision`. -/
structure TradeDecision where
  ticker : String
  date : String
  market_data : String
  new_decision : String
  deriving DecidableEq

/-- How a script run ends: normally with a decision record, via `exit(code)`,
or with an uncaught Python exception. -/
inductive GTDResult : Type where
  | ok (d : TradeDecision)
  | exited (code : ℕ)
  | raised (msg : String)
  deriving DecidableEq

/-- `results/{ticker}/{date}/reports/final_trade_decision.md`. -/
def pathFinalTradeDecision (ticker date : String) : String :=
  "results/" ++ ticker ++ "/" ++ date ++ "/reports/final_trade_decision.md"

/-- `results/{ticker}/{date}/reports/quantitative_trading_analysis.md`. -/
def pathQuantAnalysis (ticker date : String) : String :=
  "results/" ++ ticker ++ "/" ++ date ++ "/reports/quantitative_trading_analysis.md"

/-- Evaluation of the fallback f-string of the `except` handler (line 246),
`f"Ticker: {ticker}\nCurrent price: ${current_price:...}\n"`: formatting
`None` with a non-empty spec raises `TypeError`; formatting a float with
the invalid `fallbackSpec` raises `ValueError`.  The `ok` branch is what
the f-string would produce were its spec the two-decimal one. -/
def fallbackQuoteMsg (ticker : String) (current_price : Option ℚ) :
    Except String String :=
  match current_price with
  | none =>
    Except.error "TypeError: unsupported format string passed to NoneType.__format__"
  | some v =>
    if validFloatFormatSpec fallbackSpec then
      Except.ok ("Ticker: " ++ ticker ++ "\nCurrent price: $" ++ pyFormatFixed2 v ++ "\n")
    else Except.error "ValueError: Invalid format specifier"

/-- The `position_data` block (lines 268–285): the P&L arithmetic needs a
numeric `current_price`; with a position but no price it would raise. -/
def positionData (current_price : Option ℚ) (pi : Option PositionInfo) :
    Except String String :=
  match pi with
  | none => Except.ok "\n```markdown\nNo current position\n```\n"
  | some p =>
    match current_price with
    | none => Except.error "TypeError: unsupported operand type(s)"
    | some c =>
      Except.ok ("\n```markdown\nEntry Price: $" ++ pyFormatFixed2 p.entry_price
        ++ "\nPosition Size: " ++ Int.repr p.size ++ " shares"
        ++ "\nCurrent P&L: "
        ++ pyFormatFixed2 ((c - p.entry_price) / p.entry_price * 100) ++ "%"
        ++ "\nUnrealized P&L: $"
        ++ pyFormatFixed2 ((c - p.entry_price) * (p.size : ℚ))
        ++ "\nRisk Tolerance: " ++ p.risk_tolerance
        ++ "\nTrading Style: " ++ p.trading_style
        ++ "\n```\n")

/-- The tail of `get_trading_decision` after the quote section: the
decision-file read (lines 251–266, `exit(1)` on any failure), the position
block, and the LLM call (lines 384–401, whose failure becomes an error
text inside a normally returned record). -/
def gtdRest (ticker date : String) (current_price : Option ℚ)
    (quote_msg : String) (pi : Option PositionInfo) (env : GTDEnv) :
    GTDResult × List IOEvent :=
  match env.fileResult with
  | Except.error _ =>
    (GTDResult.exited 1, [IOEvent.fileRead (pathFinalTradeDecision ticker date)])
  | Except.ok _trade_decision =>
    match positionData current_price pi with
    | Except.error e =>
      (GTDResult.raised e, [IOEvent.fileRead (pathFinalTradeDecision ticker date)])
    | Except.ok _position_data =>
      match env.llmResult with
      | Except.ok content =>
        (GTDResult.ok ⟨ticker, date, quote_msg, content⟩,
         [IOEvent.fileRead (pathFinalTradeDecision ticker date), IOEvent.llmInvoke])
      | Except.error e =>
        (GTDResult.ok ⟨ticker, date, quote_msg,
            "Error generating trading decision: " ++ e⟩,
         [IOEvent.fileRead (pathFinalTradeDecision ticker date), IOEvent.llmInvoke])

/-- `get_trading_decision` (lines 209–401).  On a successful quote the
report is `todaysQuoteMsg` with `current_price` defaulted to
`quote.get("c", 0)`; on a failed quote the `except` handler evaluates the
fallback f-string, whose invalid format spec raises out of the function. -/
def get_trading_decision (ticker date : String) (current_price : Option ℚ)
    (position_info : Option PositionInfo) (env : GTDEnv) :
    GTDResult × List IOEvent :=
  match env.quoteResult with
  | Except.error _ =>
    (match fallbackQuoteMsg ticker current_price with
     | Except.error e => (GTDResult.raised e, [IOEvent.providerQuote ticker])
     | Except.ok msg =>
       let r := gtdRest ticker date current_price msg position_info env
       (r.1, IOEvent.providerQuote ticker :: r.2))
  | Except.ok quote =>
    let cp : ℚ :=
      match current_price with
      | none => dictGetD quote "c" 0
      | some v => v
    let r := gtdRest ticker date (some cp) (todaysQuoteMsg cp quote) position_info env
    (r.1, IOEvent.providerQuote ticker :: r.2)

/-- The `run_trading_agent` closure of `__main__` (lines 552–587): get the
decision, then `save_trade_decision` writes the analysis file (only a
normally returned record reaches the save). -/
def runTradingAgent (ticker date : String) (position_info : Option PositionInfo)
    (env : GTDEnv) : GTDResult × List IOEvent :=
  let r := get_trading_decision ticker date none position_info env
  match r.1 with
  | GTDResult.ok _ => (r.1, r.2 ++ [IOEvent.fileWrite (pathQuantAnalysis ticker date)])
  | _ => r

/-- The command-line branch of `todays_report.py` `__main__`
(lines 532–589): uppercase the chosen ticker, validate the date with
`strptime` (`exit(1)` on `ValueError`), validate the ticker with
`isalpha` (`exit(1)` otherwise), then run `run_trading_agent`.  Both
validations precede every I/O event. -/
def todaysMainCmdline (tickerArg dateArg : String)
    (position_info : Option PositionInfo) (env : GTDEnv) :
    GTDResult × List IOEvent :=
  if (parseDateYMD dateArg).isNone then (GTDResult.exited 1, [])
  else if !pyIsAlpha (pyUpper tickerArg) then (GTDResult.exited 1, [])
  else runTradingAgent (pyUpper tickerArg) dateArg position_info env

/-- The ticker loop of `collect_ticker_and_date` (lines 23–27): keep
prompting until an input, stripped and uppercased, is alphabetic and
non-empty.  Modelled over the finite list of inputs the user supplies;
`none` when none of them is valid (the real loop would prompt forever). -/
def collectTicker : List String → Option String
  | [] => none
  | i :: rest =>
    if pyIsAlpha (pyUpper (pyStrip i)) then some (pyUpper (pyStrip i))
    else collectTicker rest

/-- The date loop of `collect_ticker_and_date` (lines 30–43): an empty
input means today's date; otherwise the input must satisfy `strptime`,
else the loop re-prompts. -/
def collectDate (today : String) : List String → Option String
  | [] => none
  | i :: rest =>
    if (parseDateYMD (if (pyStrip i).isEmpty then today else pyStrip i)).isSome then
      some (if (pyStrip i).isEmpty then today else pyStrip i)
    else collectDate today rest

/-- The interactive branch of `todays_report.py` `__main__`: collect a
validated ticker and date, then run `run_trading_agent`.  `none` when the
user never supplies valid inputs (the real loops would prompt forever). -/
def todaysMainInteractive (today : String) (tickerInputs dateInputs : List String)
    (position_info : Option PositionInfo) (env : GTDEnv) :
    Option (GTDResult × List IOEvent) :=
  match collectTicker tickerInputs with
  | none => none
  | some ticker =>
    match collectDate today dateInputs with
    | none => none
    | some date => some (runTradingAgent ticker date position_info env)

/-- `main.py`: `parse_arguments` validates the date with `strptime` and
`parser.error` (argparse exits with status 2) before the graph is built
and `propagate` performs any provider/LLM work; the agent-graph workflow
itself is outside the corpus and appears as one `graphPropagate` event. -/
def mainPy (ticker date : String) : Except ℕ (List IOEvent) :=
  if (parseDateYMD date).isNone then Except.error 2
  else Except.ok [IOEvent.graphPropagate ticker date]

/-! ## The windowing & caching layer (spec §4.2)

The implementation (`tradingagents/dataflows/interface.py` and the utils it
imports) is not part of the corpus — only its façade declarations in
`__init__.py` are — so the layer is modelled from the spec. -/

/-- Modelled from the spec: §3's PriceBar, one OHLCV observation keyed by
date (dates as ordinals); `interface.py` is missing from the corpus. -/
structure PriceBar where
  date : ℕ
  openPrice : ℚ
  high : ℚ
  low : ℚ
  close : ℚ
  volume : ℚ
  deriving DecidableEq

/-- Modelled from the spec: §4.2's window selection — the bars of the
series whose date lies in `[start, stop]` inclusive; `interface.py` is
missing from the corpus. -/
def window (series : List PriceBar) (start stop : ℕ) : List PriceBar :=
  series.filter (fun b => start ≤ b.date && b.date ≤ stop)

/-- Modelled from the spec: §3's process-wide DataSourceMode. -/
inductive DataSourceMode : Type where
  | online
  | offline
  deriving DecidableEq

/-- Modelled from the spec: lookup in the (ticker, mode)-keyed series
cache of §4.2; `interface.py` is missing from the corpus. -/
def cacheLookup : List ((String × DataSourceMode) × List PriceBar) →
    String × DataSourceMode → Option (List PriceBar)
  | [], _ => none
  | (k', v) :: rest, k => if k' = k then some v else cacheLookup rest k

/-- Modelled from the spec: §4.2's in-process cache of maximal series,
keyed by (ticker, mode), append-only within a run; `interface.py` is
missing from the corpus. -/
structure SeriesCache where
  entries : List ((String × DataSourceMode) × List PriceBar)

/-- Modelled from the spec: fetch the maximal available series once per
(ticker, mode) — a cache hit returns the cached series with zero provider
fetches, a miss calls the provider once and records the entry.  The third
component counts the provider fetches this call performed. -/
def fetchMaximal (provider : String → DataSourceMode → List PriceBar)
    (cache : SeriesCache) (ticker : String) (mode : DataSourceMode) :
    List PriceBar × SeriesCache × ℕ :=
  match cacheLookup cache.entries (ticker, mode) with
  | some s => (s, cache, 0)
  | none =>
    let s := provider ticker mode
    (s, ⟨((ticker, mode), s) :: cache.entries⟩, 1)

/-- Modelled from the spec: a windowed Façade call — resolve the maximal
series through the cache, then select the requested window. -/
def facadeWindowedCall (provider : String → DataSourceMode → List PriceBar)
    (cache : SeriesCache) (ticker : String) (mode : DataSourceMode)
    (start stop : ℕ) : List PriceBar × SeriesCache × ℕ :=
  let r := fetchMaximal provider cache ticker mode
  (window r.1 start stop, r.2.1, r.2.2)

/-! ## The façade export list (`tradingagents/dataflows/__init__.py`) -/

/-- The `__all__` list of `tradingagents/dataflows/__init__.py`
(lines 22–41) — the unified Façade's exported functions. -/
def facadeAll : List String :=
  ["get_finnhub_news", "get_finnhub_market_news",
   "get_finnhub_company_insider_sentiment",
   "get_finnhub_company_insider_transactions", "get_google_news",
   "get_reddit_global_news", "get_reddit_company_news",
   "get_simfin_balance_sheet", "get_simfin_cashflow",
   "get_simfin_income_statements", "get_stock_stats_indicators_window",
   "get_stockstats_indicator", "get_YFin_data_window", "get_YFin_data"]

/-- The (provider, query-shape) combinations §4.1/§4.3 require of the
Façade. -/
inductive QueryShape : Type where
  | realTimeQuote
  | companyNews
  | insiderSentiment
  | insiderTransactions
  | aggregateMarketNews
  | historicalOHLCV
  | balanceSheet
  | cashFlow
  | incomeStatement
  | globalSocial
  | companySocial
  | topicalNewsSearch
  | indicatorComputation
  deriving DecidableEq

/-- Modelled from the spec: §4.1's required adapters, assigned to the
exported names following the grouping comments and names of `__init__.py`
(the adapter bodies in `interface.py` are missing from the corpus). -/
def servesShape : String → List QueryShape
  | "get_finnhub_news" => [QueryShape.companyNews]
  | "get_finnhub_market_news" => [QueryShape.aggregateMarketNews]
  | "get_finnhub_company_insider_sentiment" => [QueryShape.insiderSentiment]
  | "get_finnhub_company_insider_transactions" => [QueryShape.insiderTransactions]
  | "get_google_news" => [QueryShape.topicalNewsSearch]
  | "get_reddit_global_news" => [QueryShape.globalSocial]
  | "get_reddit_company_news" => [QueryShape.companySocial]
  | "get_simfin_balance_sheet" => [QueryShape.balanceSheet]
  | "get_simfin_cashflow" => [QueryShape.cashFlow]
  | "get_simfin_income_statements" => [QueryShape.incomeStatement]
  | "get_stock_stats_indicators_window" => [QueryShape.indicatorComputation]
  | "get_stockstats_indicator" => [QueryShape.indicatorComputation]
  | "get_YFin_data_window" => [QueryShape.historicalOHLCV]
  | "get_YFin_data" => [QueryShape.historicalOHLCV]
  | _ => []

/-! ## Helper lemmas on the control-flow model -/

/-- The `except` handler's f-string always raises: with no price a
`TypeError` from `NoneType.__format__`, with a price a `ValueError` from
the invalid spec. -/
theorem fallbackQuoteMsg_error (t : String) (cp : Option ℚ) :
    ∃ e, fallbackQuoteMsg t cp = Except.error e := by
  cases cp with
  | none => exact ⟨_, rfl⟩
  | some v =>
    refine ⟨"ValueError: Invalid format specifier", ?_⟩
    unfold fallbackQuoteMsg
    rw [fallbackSpec_invalid]
    rfl

/-- Nothing after the quote section performs a quote-provider call. -/
theorem gtdRest_no_providerQuote (ticker date : String) (cp : Option ℚ)
    (msg : String) (pi : Option PositionInfo) (env : GTDEnv) (t : String) :
    IOEvent.providerQuote t ∉ (gtdRest ticker date cp msg pi env).2 := by
  unfold gtdRest
  cases env.fileResult with
  | error e => simp
  | ok td =>
    cases positionData cp pi with
    | error e => simp
    | ok pd =>
      cases env.llmResult with
      | error e => simp
      | ok c => simp

/-- Every quote-provider call of `get_trading_decision` carries the
ticker it was given. -/
theorem gtd_providerQuote_ticker (ticker date : String) (cp : Option ℚ)
    (pi : Option PositionInfo) (env : GTDEnv) (t : String)
    (h : IOEvent.providerQuote t ∈ (get_trading_decision ticker date cp pi env).2) :
    t = ticker := by
  unfold get_trading_decision at h
  cases hq : env.quoteResult with
  | error e =>
    rw [hq] at h
    obtain ⟨e', he⟩ := fallbackQuoteMsg_error ticker cp
    rw [he] at h
    simpa using h
  | ok q =>
    rw [hq] at h
    simp only [List.mem_cons] at h
    rcases h with h | h
    · simpa using h
    · exact absurd h (gtdRest_no_providerQuote ticker date _ _ pi env t)

/-- Every quote-provider call of `run_trading_agent` carries the ticker it
was given. -/
theorem runTA_providerQuote (ticker date : String) (pi : Option PositionInfo)
    (env : GTDEnv) (t : String)
    (h : IOEvent.providerQuote t ∈ (runTradingAgent ticker date pi env).2) :
    t = ticker := by
  unfold runTradingAgent at h
  cases hr : (get_trading_decision ticker date none pi env).1 with
  | ok d =>
    simp only [hr, List.mem_append] at h
    rcases h with h | h
    · exact gtd_providerQuote_ticker ticker date none pi env t h
    · simp at h
  | exited c =>
    simp only [hr] at h
    exact gtd_providerQuote_ticker ticker date none pi env t h
  | raised m =>
    simp only [hr] at h
    exact gtd_providerQuote_ticker ticker date none pi env t h

/-- A ticker produced by the interactive ticker loop is validated. -/
theorem collectTicker_valid :
    ∀ (ins : List String) (tk : String), collectTicker ins = some tk →
      pyIsAlpha tk = true := by
  intro ins
  induction ins with
  | nil => intro tk h; simp [collectTicker] at h
  | cons i rest ih =>
    intro tk h
    unfold collectTicker at h
    split at h
    · cases h; assumption
    · exact ih tk h

/-- A date produced by the interactive date loop satisfies `strptime`. -/
theorem collectDate_valid :
    ∀ (today : String) (ins : List String) (d : String),
      collectDate today ins = some d → (parseDateYMD d).isSome = true := by
  intro today ins
  induction ins with
  | nil => intro d h; simp [collectDate] at h
  | cons i rest ih =>
    intro d h
    unfold collectDate at h
    by_cases hc :
      (parseDateYMD (if (pyStrip i).isEmpty then today else pyStrip i)).isSome = true
    · rw [if_pos hc] at h
      cases h
      exact hc
    · rw [if_neg hc] at h
      exact ih d h

/-! ## Concrete sample data for witnesses -/

/-- An environment whose three collaborators all succeed. -/
def sampleEnv : GTDEnv :=
  ⟨Except.ok aaplQuote, Except.ok "prior decision", Except.ok "analysis"⟩

/-- An environment whose quote fetch fails. -/
def envQuoteDown : GTDEnv :=
  ⟨Except.error "ConnectionError", Except.ok "prior decision", Except.ok "analysis"⟩

/-- An environment whose decision-file read fails. -/
def envFileMissing : GTDEnv :=
  ⟨Except.ok aaplQuote, Except.error "FileNotFoundError", Except.ok "analysis"⟩

/-- A ten-trading-day price series with ascending dates 1..10. -/
def sampleSeries : List PriceBar :=
  [⟨1, 1, 1, 1, 1, 1⟩, ⟨2, 1, 1, 1, 1, 1⟩, ⟨3, 1, 1, 1, 1, 1⟩,
   ⟨4, 1, 1, 1, 1, 1⟩, ⟨5, 1, 1, 1, 1, 1⟩, ⟨6, 1, 1, 1, 1, 1⟩,
   ⟨7, 1, 1, 1, 1, 1⟩, ⟨8, 1, 1, 1, 1, 1⟩, ⟨9, 1, 1, 1, 1, 1⟩,
   ⟨10, 1, 1, 1, 1, 1⟩]

/-! ## The claims -/

/-- C1 (amended): if the live quote fetch fails inside
`get_trading_decision`, the `except` handler's fallback f-string carries
an invalid format specifier, so evaluating it raises an uncaught exception
and the call aborts — no degraded report, flagged or otherwise, is
returned. -/
theorem quote_fetch_failure_aborts :
    validFloatFormatSpec fallbackSpec = false ∧
    ∀ (ticker date : String) (cp : Option ℚ) (pi : Option PositionInfo)
      (env : GTDEnv) (e : String), env.quoteResult = Except.error e →
      ∃ msg, (get_trading_decision ticker date cp pi env).1 = GTDResult.raised msg := by
  refine ⟨by decide, ?_⟩
  intro ticker date cp pi env e hq
  obtain ⟨e', he⟩ := fallbackQuoteMsg_error ticker cp
  refine ⟨e', ?_⟩
  unfold get_trading_decision
  rw [hq, he]

/-- C1 witness: a concrete failed fetch ends in `raised`. -/
theorem quote_fetch_failure_aborts_witness :
    ∃ msg, (get_trading_decision "AAPL" "2025-08-02" (some 150) none
      envQuoteDown).1 = GTDResult.raised msg :=
  quote_fetch_failure_aborts.2 "AAPL" "2025-08-02" (some 150) none
    envQuoteDown "ConnectionError" rfl

/-- C1 counterexample: with the quote provider failing, the call raises a
`ValueError` out of the fallback f-string instead of proceeding with a
flagged degraded report. -/
theorem quote_fetch_failure_cex :
    (get_trading_decision "AAPL" "2025-08-02" (some 150) none envQuoteDown).1 =
      GTDResult.raised "ValueError: Invalid format specifier" := by decide

/-- C3 (amended): in `todays_report.py` every quote-provider call — in the
command-line flow and in the interactive flow — receives a ticker
validated as non-empty and letters only; `current.py`, however, passes its
command-line ticker to the provider unvalidated. -/
theorem todays_report_ticker_validated_before_provider :
    (∀ (tickerArg dateArg : String) (pi : Option PositionInfo) (env : GTDEnv)
      (t : String),
      IOEvent.providerQuote t ∈ (todaysMainCmdline tickerArg dateArg pi env).2 →
      pyIsAlpha t = true) ∧
    (∀ (today : String) (tickerInputs dateInputs : List String)
      (pi : Option PositionInfo) (env : GTDEnv) (r : GTDResult × List IOEvent)
      (t : String),
      todaysMainInteractive today tickerInputs dateInputs pi env = some r →
      IOEvent.providerQuote t ∈ r.2 → pyIsAlpha t = true) := by
  constructor
  · intro tickerArg dateArg pi env t h
    unfold todaysMainCmdline at h
    split at h
    · simp at h
    · split at h
      · simp at h
      · next hv =>
        rw [runTA_providerQuote (pyUpper tickerArg) dateArg pi env t h]
        simpa using hv
  · intro today tIns dIns pi env r t hr hmem
    unfold todaysMainInteractive at hr
    split at hr
    · exact absurd hr (by simp)
    · next ticker hticker =>
      split at hr
      · exact absurd hr (by simp)
      · next date hdate =>
        cases hr
        rw [runTA_providerQuote ticker date pi env t hmem]
        exact collectTicker_valid tIns ticker hticker

/-- C3 counterexample: `current.py` reaches the quote provider with the
command-line ticker `"AB1"`, which is not alphabetic — no validation
precedes the call. -/
theorem current_py_unvalidated_ticker_cex :
    (currentMain "AB1" []).2 = [IOEvent.providerQuote "AB1"] ∧
    pyIsAlpha "AB1" = false := by decide

/-- C6: a date string that fails `"%Y-%m-%d"` validation is rejected with
an error before any provider call, file read, or LLM call: the
command-line flow of `todays_report.py` exits with status 1 and an empty
I/O trace, `main.py`'s argparse flow errors out (status 2) before the
graph propagates, and the interactive date loop only ever yields a date
that parses. -/
theorem malformed_date_rejected_before_any_io_event :
    ∀ (tickerArg dateArg : String) (pi : Option PositionInfo) (env : GTDEnv),
      parseDateYMD dateArg = none →
      todaysMainCmdline tickerArg dateArg pi env = (GTDResult.exited 1, []) ∧
      mainPy tickerArg dateArg = Except.error 2 ∧
      (∀ (today : String) (dateInputs : List String) (d : String),
        collectDate today dateInputs = some d → (parseDateYMD d).isSome = true) := by
  intro tickerArg dateArg pi env hbad
  refine ⟨?_, ?_, collectDate_valid⟩
  · unfold todaysMainCmdline
    rw [hbad]
    rfl
  · unfold mainPy
    rw [hbad]
    rfl

/-- C6 witness: the malformed date `"2024-13-01"` at concrete inputs. -/
theorem malformed_date_rejected_witness :
    todaysMainCmdline "NVDA" "2024-13-01" none sampleEnv = (GTDResult.exited 1, []) ∧
    mainPy "NVDA" "2024-13-01" = Except.error 2 ∧
    (∀ (today : String) (dateInputs : List String) (d : String),
      collectDate today dateInputs = some d → (parseDateYMD d).isSome = true) :=
  malformed_date_rejected_before_any_io_event "NVDA" "2024-13-01" none sampleEnv
    (by decide)

/-- C9 (amended): `build_position_info_from_args` returns a dictionary —
with exactly the keys entry price, size, risk tolerance and trading
style — precisely when both `entry_price` and `position_size` are provided
with Python-truthy (non-zero) values, and `None` otherwise; in particular
an argument that is absent, and equally one provided as zero, yields
`None`. -/
theorem build_position_info_truthiness :
    ∀ (ep : Option ℚ) (ps : Option ℤ) (rt ts : String),
      ((build_position_info_from_args ep ps rt ts).isSome ↔
        (truthyQ ep = true ∧ truthyZ ps = true)) ∧
      (truthyQ ep = true → truthyZ ps = true →
        build_position_info_from_args ep ps rt ts =
          some ⟨ep.getD 0, ps.getD 0, rt, ts⟩) ∧
      ((ep = none ∨ ps = none) → build_position_info_from_args ep ps rt ts = none) := by
  intro ep ps rt ts
  refine ⟨?_, ?_, ?_⟩
  · unfold build_position_info_from_args
    cases hq : truthyQ ep <;> cases hz : truthyZ ps <;> simp
  · intro h1 h2
    unfold build_position_info_from_args
    rw [h1, h2]
    simp
  · intro h
    unfold build_position_info_from_args
    rcases h with h | h <;> subst h
    · simp [truthyQ]
    · cases hq : truthyQ ep <;> simp [truthyZ]
/-- C9 counterexample: both arguments provided, but `--entry-price 0.0` is
falsy, so the function returns `None` though both were provided. -/
theorem build_position_info_zero_entry_price_cex :
    (some (0 : ℚ)).isSome = true ∧ (some (100 : ℤ)).isSome = true ∧
    build_position_info_from_args (some 0) (some 100) "Medium" "Swing Trading" =
      none := by decide

/-- C10: when the quote succeeded but the previous-decision file read
fails for any reason, the run exits with status 1: no decision record is
produced and nothing is written. -/
theorem missing_decision_file_exits_without_saving :
    ∀ (ticker date : String) (pi : Option PositionInfo) (env : GTDEnv)
      (q : List (String × ℚ)) (e : String),
      env.quoteResult = Except.ok q → env.fileResult = Except.error e →
      runTradingAgent ticker date pi env =
        (GTDResult.exited 1,
         [IOEvent.providerQuote ticker,
          IOEvent.fileRead (pathFinalTradeDecision ticker date)]) ∧
      (∀ d, (runTradingAgent ticker date pi env).1 ≠ GTDResult.ok d) ∧
      (∀ p, IOEvent.fileWrite p ∉ (runTradingAgent ticker date pi env).2) := by
  intro ticker date pi env q e hq hf
  have hmain : runTradingAgent ticker date pi env =
      (GTDResult.exited 1,
       [IOEvent.providerQuote ticker,
        IOEvent.fileRead (pathFinalTradeDecision ticker date)]) := by
    unfold runTradingAgent get_trading_decision gtdRest
    rw [hq, hf]
  refine ⟨hmain, ?_, ?_⟩
  · intro d
    rw [hmain]
    simp
  · intro p
    rw [hmain]
    simp

/-- C10 witness: a concrete missing decision file. -/
theorem missing_decision_file_witness :
    runTradingAgent "NVDA" "2025-08-02" none envFileMissing =
      (GTDResult.exited 1,
       [IOEvent.providerQuote "NVDA",
        IOEvent.fileRead (pathFinalTradeDecision "NVDA" "2025-08-02")]) ∧
    (∀ d, (runTradingAgent "NVDA" "2025-08-02" none envFileMissing).1 ≠
      GTDResult.ok d) ∧
    (∀ p, IOEvent.fileWrite p ∉
      (runTradingAgent "NVDA" "2025-08-02" none envFileMissing).2) :=
  missing_decision_file_exits_without_saving "NVDA" "2025-08-02" none
    envFileMissing aaplQuote "FileNotFoundError" rfl rfl

/-- C4: windowing (modelled from the spec, the implementation being outside
the corpus) returns only bars of the series whose date lies in
`[start, stop]`, in ascending date order, with no duplicates. -/
theorem window_in_range_sorted_nodup :
    ∀ (series : List PriceBar) (start stop : ℕ),
      List.Sorted (fun a b : PriceBar => a.date < b.date) series →
      (∀ b ∈ window series start stop,
        b ∈ series ∧ start ≤ b.date ∧ b.date ≤ stop) ∧
      List.Sorted (fun a b : PriceBar => a.date < b.date)
        (window series start stop) ∧
      (window series start stop).Nodup := by
  intro series start stop hs
  have hsub : List.Sublist (window series start stop) series :=
    List.filter_sublist series
  have hsorted : List.Sorted (fun a b : PriceBar => a.date < b.date)
      (window series start stop) := List.Pairwise.sublist hsub hs
  refine ⟨?_, hsorted, ?_⟩
  · intro b hb
    rw [window, List.mem_filter] at hb
    obtain ⟨h1, h2⟩ := hb
    rw [Bool.and_eq_true, decide_eq_true_eq, decide_eq_true_eq] at h2
    exact ⟨h1, h2.1, h2.2⟩
  · exact hsorted.imp fun {a b} hlt heq => by subst heq; exact lt_irrefl _ hlt

/-- C4 witness: the ten-day series windowed to `[3, 7]`. -/
theorem window_in_range_witness :
    (∀ b ∈ window sampleSeries 3 7,
      b ∈ sampleSeries ∧ 3 ≤ b.date ∧ b.date ≤ 7) ∧
    List.Sorted (fun a b : PriceBar => a.date < b.date)
      (window sampleSeries 3 7) ∧
    (window sampleSeries 3 7).Nodup :=
  window_in_range_sorted_nodup sampleSeries 3 7 (by decide)

/-- C5: the windowing/caching layer (modelled from the spec, the
implementation being outside the corpus) performs exactly one provider
fetch across two windowed calls for the same ticker with overlapping
windows: the first call fetches once, the second is served from the
(ticker, mode)-keyed cache with zero fetches. -/
theorem cache_single_fetch_overlapping_windows :
    ∀ (provider : String → DataSourceMode → List PriceBar) (ticker : String)
      (mode : DataSourceMode) (s1 e1 s2 e2 : ℕ),
      max s1 s2 ≤ min e1 e2 →
      (facadeWindowedCall provider ⟨[]⟩ ticker mode s1 e1).2.2 = 1 ∧
      (facadeWindowedCall provider
        (facadeWindowedCall provider ⟨[]⟩ ticker mode s1 e1).2.1
        ticker mode s2 e2).2.2 = 0 ∧
      (facadeWindowedCall provider
        (facadeWindowedCall provider ⟨[]⟩ ticker mode s1 e1).2.1
        ticker mode s2 e2).1 = window (provider ticker mode) s2 e2 := by
  intro provider ticker mode s1 e1 s2 e2 _hoverlap
  refine ⟨rfl, ?_, ?_⟩
  · simp [facadeWindowedCall, fetchMaximal, cacheLookup]
  · simp [facadeWindowedCall, fetchMaximal, cacheLookup]

/-- C5 witness: two overlapping windows, `[3,7]` and `[5,9]`. -/
theorem cache_single_fetch_witness :
    (facadeWindowedCall (fun _ _ => sampleSeries) ⟨[]⟩ "NVDA"
      DataSourceMode.online 3 7).2.2 = 1 ∧
    (facadeWindowedCall (fun _ _ => sampleSeries)
      (facadeWindowedCall (fun _ _ => sampleSeries) ⟨[]⟩ "NVDA"
        DataSourceMode.online 3 7).2.1
      "NVDA" DataSourceMode.online 5 9).2.2 = 0 ∧
    (facadeWindowedCall (fun _ _ => sampleSeries)
      (facadeWindowedCall (fun _ _ => sampleSeries) ⟨[]⟩ "NVDA"
        DataSourceMode.online 3 7).2.1
      "NVDA" DataSourceMode.online 5 9).1 = window sampleSeries 5 9 :=
  cache_single_fetch_overlapping_windows (fun _ _ => sampleSeries) "NVDA"
    DataSourceMode.online 3 7 5 9 (by decide)

/-- C7 (amended): the façade's export list covers every required
(provider, query-shape) combination except the real-time quote — company
news, aggregate market news, insider sentiment and transactions, topical
news search, global and per-company social discussion, the three financial
statements, indicator computation, and historical OHLCV bars each have an
exported function; real-time quotes are fetched by the CLI scripts
directly, outside the façade. -/
theorem facade_covers_required_shapes :
    ∀ k : QueryShape, k ≠ QueryShape.realTimeQuote →
      ∃ f ∈ facadeAll, k ∈ servesShape f := by
  intro k hk
  cases k
  case realTimeQuote => exact absurd rfl hk
  all_goals decide

/-- C7 witness: company news is served by an exported function. -/
theorem facade_covers_required_shapes_witness :
    ∃ f ∈ facadeAll, QueryShape.companyNews ∈ servesShape f :=
  facade_covers_required_shapes QueryShape.companyNews (by decide)

/-- C7 counterexample: no exported façade function serves the real-time
quote query shape (the export list has its 14 functions, none a quote). -/
theorem facade_lacks_realtime_quote_cex :
    (facadeAll.any fun f =>
      (servesShape f).any fun s => decide (s = QueryShape.realTimeQuote)) = false ∧
    facadeAll.length = 14 := by decide

end TradingAgents
